import Mathlib

/-!
Verification of the Oracle homelab support agent
(`roles/ai-support-agent/files/agent/main.py`, `config.py`).

The Python source is shallowly embedded: pure logic becomes Lean functions,
the stateful session/incident stores become explicit state passing, and the
environment's behaviour (what the subprocess did, which button was clicked,
what the clock reads) is an explicit input.  Monetary cost (Python float)
is modelled as `ℚ`; timestamps as `Int` epoch seconds; Python `dict` as an
association list with replace-or-append insertion.
-/

namespace Oracle

/-- Configuration relevant to tool scoping (`config.py`).  Only the fields the
claims touch are carried. -/
structure Config where
  environment : String
  auto_remediate : Bool
  auto_respond : Bool
deriving Repr, DecidableEq

/-- `Config.allow_edit_tools` (config.py lines 35-38): Write/Edit tools only in
the "dev" environment (case-insensitive). -/
def Config.allow_edit_tools (c : Config) : Bool :=
  c.environment.toLower == "dev"

/-- `ClaudeCodeExecutor._get_disallowed_tools` (main.py lines 231-241). -/
def get_disallowed_tools (c : Config) : List String :=
  if c.allow_edit_tools then
    ["AskUserQuestion"]
  else
    ["AskUserQuestion", "Write", "Edit", "MultiEdit"]

/-- The optional fields of the JSON payload that `claude --print
--output-format json` writes to stdout (read in main.py lines 369-376 via
`result.get`). -/
structure JsonPayload where
  result : Option String
  cost_usd : Option ℚ
  session_id : Option String
  num_turns : Option Nat
deriving Repr, DecidableEq

/-- What the environment did during one `ClaudeCodeExecutor.execute` call.
`completed` carries the subprocess exit code, decoded stdout/stderr text and,
when `json.loads(stdout)` succeeds, the decoded payload (`none` models a
`json.JSONDecodeError`).  The remaining constructors are the three exception
paths caught in main.py lines 392-410: `asyncio.TimeoutError`,
`FileNotFoundError`, and any other exception with its `str(e)` text. -/
inductive ExecOutcome where
  | completed (exitCode : Int) (stdout stderr : String) (payload : Option JsonPayload)
  | timedOut
  | notFound
  | exception (msg : String)
deriving Repr, DecidableEq

/-- Result dictionary of `ClaudeCodeExecutor.execute`.  The Python dicts on the
different paths carry different key sets; every caller reads missing keys with
`.get(key, default)` (defaults: cost 0, session_id "", num_turns 0, error
absent), so an absent key is modelled by that default, and an absent `error`
key by `none`. -/
structure ExecResult where
  success : Bool
  output : String
  cost : ℚ
  session_id : String
  num_turns : Nat
  error : Option String
deriving Repr, DecidableEq

/-- `ClaudeCodeExecutor.execute` (main.py lines 262-410) as a function of the
environment outcome and the `timeout` argument (seconds).
* JSON decode success (lines 368-377): `success = (returncode == 0)`, output
  from the payload's `result` field falling back to raw stdout, cost /
  session_id / num_turns from the payload with defaults; the dict has no
  `error` key.
* Decode failure (lines 378-390): `success = (returncode == 0)`, raw stdout as
  output, error = stderr if non-empty, else a synthesized message when the
  exit code is non-zero (embedding the code and a 500-character stdout
  prefix), else absent.
* `asyncio.TimeoutError` (lines 392-397), `FileNotFoundError` (lines 398-403),
  generic exception (lines 404-410): fixed failure dicts. -/
def execute (o : ExecOutcome) (timeout : Nat) : ExecResult :=
  match o with
  | .completed exitCode stdout stderr payload =>
    match payload with
    | some p =>
      { success := exitCode == 0
        output := p.result.getD stdout
        cost := p.cost_usd.getD 0
        session_id := p.session_id.getD ""
        num_turns := p.num_turns.getD 0
        error := none }
    | none =>
      let errMsg : Option String :=
        if stderr ≠ "" then some stderr
        else if exitCode ≠ 0 then
          if stdout ≠ "" then
            some ("Command failed (exit code " ++ toString exitCode ++ "). Output: "
                  ++ stdout.take 500)
          else
            some ("Command failed with exit code " ++ toString exitCode)
        else none
      { success := exitCode == 0
        output := stdout
        cost := 0
        session_id := ""
        num_turns := 0
        error := errMsg }
  | .timedOut =>
      { success := false
        output := ""
        cost := 0
        session_id := ""
        num_turns := 0
        error := some ("Claude CLI timed out after " ++ toString timeout ++ " seconds") }
  | .notFound =>
      { success := false
        output := ""
        cost := 0
        session_id := ""
        num_turns := 0
        error := some "Claude CLI not found. Ensure it is installed and in PATH." }
  | .exception msg =>
      { success := false
        output := ""
        cost := 0
        session_id := ""
        num_turns := 0
        error := some msg }

/-- Whether the code path of `ClaudeCodeExecutor.execute` taken for a given
outcome invokes any subprocess-termination primitive.  The body of `execute`
(main.py lines 289-410) contains no `process.kill()` / `process.terminate()`
call on any path; in particular the `asyncio.TimeoutError` handler (lines
392-397) only builds and returns the failure dict — `asyncio.wait_for`
cancels the `communicate()` await but does not kill the child process. -/
def terminatesSubprocess : ExecOutcome → Bool
  | .completed _ _ _ _ => false
  | .timedOut => false
  | .notFound => false
  | .exception _ => false

/-- Whether the code path of `ClaudeCodeExecutor.execute` taken for a given
outcome deletes the temporary system-prompt file created at lines 321-329.
The only `os.unlink` is at lines 360-365, which runs after
`process.communicate()` returns and before JSON parsing, so it is reached
exactly on the `completed` paths; the `asyncio.TimeoutError`,
`FileNotFoundError` and generic exception handlers (lines 392-410) contain no
cleanup. -/
def releasesSystemPromptFile : ExecOutcome → Bool
  | .completed _ _ _ _ => true
  | .timedOut => false
  | .notFound => false
  | .exception _ => false

/-- The call sites that invoke `ClaudeCodeExecutor.execute` in main.py:
conversation turns in the agent channel (`_handle_agent_conversation`, line
845), the three incident phases (`investigate_alert` line 452,
`run_diagnostics` line 500, `attempt_remediation` line 557), the `/ask-oracle`
command (line 1151), the `/run-task` command (line 1253), and the two phases
of `/remediate` (analysis line 1353, execution line 1424). -/
inductive InvocationSite where
  | conversationTurn
  | investigateAlert
  | runDiagnostics
  | attemptRemediation
  | askOracle
  | runTask
  | remediateAnalysis
  | remediateExecute
deriving Repr, DecidableEq

/-- The `disallowed_tools` argument each call site passes to `execute`, as
written in the source.  Every site passes `_get_disallowed_tools()` except the
`/remediate` analysis phase, which passes the literal list
`["Write", "Edit", "MultiEdit"]` (main.py lines 1353-1359). -/
def disallowedToolsAt (c : Config) : InvocationSite → List String
  | .conversationTurn => get_disallowed_tools c
  | .investigateAlert => get_disallowed_tools c
  | .runDiagnostics => get_disallowed_tools c
  | .attemptRemediation => get_disallowed_tools c
  | .askOracle => get_disallowed_tools c
  | .runTask => get_disallowed_tools c
  | .remediateAnalysis => ["Write", "Edit", "MultiEdit"]
  | .remediateExecute => get_disallowed_tools c

/-- Python `dict` lookup on an association list: the (unique) binding for the
key, if any. -/
def dictGet {α : Type} (m : List (Nat × α)) (k : Nat) : Option α :=
  (m.find? (fun p => p.1 == k)).map (fun p => p.2)

/-- Python `dict` assignment `m[k] = v` on an association list: replace the
binding in place when the key is present, otherwise append. -/
def dictInsert {α : Type} (m : List (Nat × α)) (k : Nat) (v : α) : List (Nat × α) :=
  if m.any (fun p => p.1 == k) then
    m.map (fun p => if p.1 == k then (k, v) else p)
  else
    m ++ [(k, v)]

/-- `ChannelSession` (main.py lines 115-123).  `session_id` (a `uuid.uuid4()`
string in the source) is modelled as a natural number drawn from a fresh
supply: uuid4 values are assumed globally unique, which the counter supply
makes provable.  Timestamps are epoch seconds (`Int`), cost is `ℚ`. -/
structure ChannelSession where
  session_id : Nat
  channel_id : Nat
  created_at : Int
  last_used : Int
  message_count : Nat
  total_cost : ℚ
deriving Repr, DecidableEq

/-- `SessionManager` (main.py lines 126-175): the per-channel session dict,
the timeout in minutes, plus the fresh-token supply counter standing for
`uuid.uuid4()`. -/
structure SessionManager where
  sessions : List (Nat × ChannelSession)
  session_timeout : Int
  fresh : Nat
deriving Repr, DecidableEq

/-- `SessionManager.__init__` (main.py lines 129-131). -/
def SessionManager.init (session_timeout_minutes : Int) : SessionManager :=
  { sessions := [], session_timeout := session_timeout_minutes, fresh := 0 }

/-- `SessionManager.get_or_create_session` (main.py lines 133-156), with the
current clock reading `now` made explicit.  The liveness test
`(now - last_used).total_seconds() / 60 < session_timeout` is equivalent (over
the reals, with a positive divisor) to `now - last_used < 60 * session_timeout`.
Returns `((session_id, is_resume), updated manager)`. -/
def SessionManager.get_or_create_session (m : SessionManager) (now : Int)
    (channel_id : Nat) : (Nat × Bool) × SessionManager :=
  let newSession : ChannelSession :=
    { session_id := m.fresh, channel_id := channel_id, created_at := now,
      last_used := now, message_count := 1, total_cost := 0 }
  let created : (Nat × Bool) × SessionManager :=
    ((m.fresh, false),
     { m with
       sessions := dictInsert m.sessions channel_id newSession
       fresh := m.fresh + 1 })
  match dictGet m.sessions channel_id with
  | some session =>
    if now - session.last_used < 60 * m.session_timeout then
      let session' :=
        { session with
          last_used := now
          message_count := session.message_count + 1 }
      ((session.session_id, true),
       { m with sessions := dictInsert m.sessions channel_id session' })
    else
      created
  | none => created

/-- `SessionManager.reset_session` (main.py lines 158-166): unconditionally
replace any session for the channel with a fresh one. -/
def SessionManager.reset_session (m : SessionManager) (now : Int)
    (channel_id : Nat) : Nat × SessionManager :=
  let newSession : ChannelSession :=
    { session_id := m.fresh, channel_id := channel_id, created_at := now,
      last_used := now, message_count := 1, total_cost := 0 }
  (m.fresh,
   { m with
     sessions := dictInsert m.sessions channel_id newSession
     fresh := m.fresh + 1 })

/-- `SessionManager.get_session_info` (main.py lines 168-170): read-only
lookup. -/
def SessionManager.get_session_info (m : SessionManager)
    (channel_id : Nat) : Option ChannelSession :=
  dictGet m.sessions channel_id

/-- `SessionManager.update_cost` (main.py lines 172-175): add to
`total_cost` when the channel has a session, otherwise a no-op. -/
def SessionManager.update_cost (m : SessionManager) (channel_id : Nat)
    (cost : ℚ) : SessionManager :=
  match dictGet m.sessions channel_id with
  | some session =>
      let session' := { session with total_cost := session.total_cost + cost }
      { m with sessions := dictInsert m.sessions channel_id session' }
  | none => m

/-- One mutating `SessionManager` operation with its arguments (the clock
reading, channel and cost are environment inputs).  `get_session_info` is
read-only and performs no step. -/
inductive SessionStep : SessionManager → SessionManager → Prop where
  | getOrCreate (m : SessionManager) (now : Int) (channel_id : Nat) :
      SessionStep m (m.get_or_create_session now channel_id).2
  | reset (m : SessionManager) (now : Int) (channel_id : Nat) :
      SessionStep m (m.reset_session now channel_id).2
  | updateCost (m : SessionManager) (channel_id : Nat) (cost : ℚ) :
      SessionStep m (m.update_cost channel_id cost)

/-- States of the session manager reachable from `SessionManager.init` by any
sequence of the mutating operations. -/
inductive SessionReachable : SessionManager → Prop where
  | init (session_timeout_minutes : Int) :
      SessionReachable (SessionManager.init session_timeout_minutes)
  | step {m m' : SessionManager} :
      SessionReachable m → SessionStep m m' → SessionReachable m'

/-- Structural invariant of the session store: keys are unique, every stored
session is keyed by its own `channel_id`, has `message_count ≥ 1`, and carries
a token below the fresh-supply counter. -/
def SessionInv (m : SessionManager) : Prop :=
  (m.sessions.map Prod.fst).Nodup ∧
  ∀ p ∈ m.sessions, p.2.channel_id = p.1 ∧ 1 ≤ p.2.message_count ∧
    p.2.session_id < m.fresh

/-- The Discord approval view (`ApprovalView`, main.py lines 180-218): the
mutable decision state the button callbacks and the timeout handler write. -/
structure ApprovalViewState where
  approved : Option Bool
  responder : Option Nat
deriving Repr, DecidableEq

/-- How one `ApprovalView` wait can resolve: an approve click, a deny click
(each by some user, modelled by id), or the view timing out with no click. -/
inductive ApprovalEvent where
  | approveClick (user : Nat)
  | denyClick (user : Nat)
  | timeoutElapsed
deriving Repr, DecidableEq

/-- State of the view after `view.wait()` returns, per the resolving event:
`approve_button` (lines 190-198) sets `approved = True`, `responder = user`;
`deny_button` (lines 200-208) sets `approved = False`, `responder = user`;
`on_timeout` (lines 217-218) sets `approved = False` and leaves `responder`
as the initial `None`. -/
def ApprovalView.resolve : ApprovalEvent → ApprovalViewState
  | .approveClick user => { approved := some true, responder := some user }
  | .denyClick user => { approved := some false, responder := some user }
  | .timeoutElapsed => { approved := some false, responder := none }

/-- What `remediate_command` does after `await view.wait()` (main.py lines
1397-1430): if `view.approved is None` it reports a timeout and returns; if
the decision is a denial it returns; otherwise it proceeds to the phase-3
execution call, attributed to `view.responder`. -/
inductive RemediateOutcome where
  | cancelledTimeout
  | deniedStop
  | executed (approver : Option Nat)
deriving Repr, DecidableEq

/-- Post-wait control flow of `remediate_command` (main.py lines 1397-1430). -/
def remediateAfterWait (v : ApprovalViewState) : RemediateOutcome :=
  match v.approved with
  | none => .cancelledTimeout
  | some false => .deniedStop
  | some true => .executed v.responder

/-- The three Claude invocations `_investigate_incident` can issue:
`investigate_alert` (phase 1), `run_diagnostics` (phase 2),
`attempt_remediation` (phase 3). -/
inductive Phase where
  | investigation
  | diagnostics
  | remediation
deriving Repr, DecidableEq

/-- Observable outcome of one `OracleAgent._investigate_incident` run
(main.py lines 978-1117) on the exception-free path (Discord sends modelled
as no-ops; `execute` itself never raises, which `execute` above reflects):
the incident's final `status` string, its final `cost_usd`, the phases whose
invocation was actually issued, and the amount added to the process-wide
`total_cost_usd` ledger. -/
structure IncidentRun where
  status : String
  cost_usd : ℚ
  invoked : List Phase
  ledgerAdd : ℚ
deriving Repr, DecidableEq

/-- `OracleAgent._investigate_incident` (main.py lines 978-1117), with the
three phase results supplied by the environment.  The incident starts with
`status = "investigating"`, `cost_usd = 0` (set in `handle_alert`, lines
898-906).  Phase 1's cost is added (line 992); on phase-1 failure the
function returns early (line 1015) without touching `status` or
`total_cost_usd`.  Otherwise phase 2 runs and its cost is added (line 1024)
whether or not it succeeds; then, if `auto_remediate`, phase 3 runs, its cost
is added (line 1049) and `status` becomes `"resolved"` or `"needs_review"`;
if not, no phase-3 call is made and `status` becomes `"needs_action"`.
Finally `total_cost_usd += incident['cost_usd']` (line 1085). -/
def investigateIncident (auto_remediate : Bool)
    (inv diag rem : ExecResult) : IncidentRun :=
  if inv.success then
    if auto_remediate then
      { status := if rem.success then "resolved" else "needs_review"
        cost_usd := inv.cost + diag.cost + rem.cost
        invoked := [.investigation, .diagnostics, .remediation]
        ledgerAdd := inv.cost + diag.cost + rem.cost }
    else
      { status := "needs_action"
        cost_usd := inv.cost + diag.cost
        invoked := [.investigation, .diagnostics]
        ledgerAdd := inv.cost + diag.cost }
  else
    { status := "investigating"
      cost_usd := inv.cost
      invoked := [.investigation]
      ledgerAdd := 0 }

/-- An alert parsed from a Discord message (`_parse_alert`, main.py lines
939-960); only identity matters for the incident-map claims. -/
structure Alert where
  title : String
  level : String
  description : String
deriving Repr, DecidableEq

/-- One record of `OracleAgent.active_incidents`. -/
structure IncidentRec where
  id : String
  alert : Alert
  status : String
  cost_usd : ℚ
deriving Repr, DecidableEq

/-- Rendering of `datetime.now(timezone.utc).strftime('%Y%m%d%H%M%S')` used
in the incident id (main.py line 897).  `strftime` with this format depends
only on the whole epoch second (sub-second precision is discarded) and is
injective on epoch seconds; it is modelled as the decimal rendering of the
epoch second, which has exactly those two properties. -/
def strftimeYmdHMS (epochSecond : Nat) : String :=
  toString epochSecond

/-- Incident-id construction, `f"INC-{...strftime('%Y%m%d%H%M%S')}"`
(main.py line 897). -/
def incidentIdOf (epochSecond : Nat) : String :=
  "INC-" ++ strftimeYmdHMS epochSecond

/-- Python `dict` assignment keyed by strings (for `active_incidents`). -/
def dictInsertS {α : Type} (m : List (String × α)) (k : String) (v : α) :
    List (String × α) :=
  if m.any (fun p => p.1 == k) then
    m.map (fun p => if p.1 == k then (k, v) else p)
  else
    m ++ [(k, v)]

/-- Python `dict` lookup keyed by strings. -/
def dictGetS {α : Type} (m : List (String × α)) (k : String) : Option α :=
  (m.find? (fun p => p.1 == k)).map (fun p => p.2)

/-- Incident creation in `OracleAgent.handle_alert` (main.py lines 896-906):
derive the id from the current wall-clock second and store a fresh record
under that id in `active_incidents` (a Python dict assignment, so an existing
record under the same id is overwritten).  The sub-second part of the clock
is passed to show it cannot influence the result.  Returns the updated map
and the id. -/
def handle_alert (incidents : List (String × IncidentRec))
    (epochSecond : Nat) (subsecondMicros : Nat) (alert : Alert) :
    List (String × IncidentRec) × String :=
  let _ := subsecondMicros
  let incident_id := incidentIdOf epochSecond
  (dictInsertS incidents incident_id
    { id := incident_id, alert := alert, status := "investigating",
      cost_usd := 0 },
   incident_id)

/-! ## Helper lemmas about the dict embedding -/

theorem string_append_ne_empty (a b : String) (h : a.length ≠ 0) :
    a ++ b ≠ "" := by
  intro hab
  have hl : (a ++ b).length = 0 := by rw [hab]; rfl
  rw [String.length_append] at hl
  omega

theorem find?_map_replace_self {α : Type} (m : List (Nat × α)) (k : Nat) (v : α)
    (hAny : m.any (fun p => p.1 == k) = true) :
    (m.map (fun p => if p.1 == k then (k, v) else p)).find?
      (fun p => p.1 == k) = some (k, v) := by
  induction m with
  | nil => simp at hAny
  | cons p t ih =>
    by_cases hp : p.1 == k
    · simp [List.find?, hp]
    · have hAny' : t.any (fun p => p.1 == k) = true := by
        simp [List.any_cons, hp] at hAny
        simpa using hAny
      simpa [List.find?, hp] using ih hAny'

theorem dictGet_append_self {α : Type} (m : List (Nat × α)) (k : Nat) (v : α)
    (hAny : m.any (fun p => p.1 == k) = false) :
    dictGet (m ++ [(k, v)]) k = some v := by
  induction m with
  | nil => simp [dictGet, List.find?]
  | cons p t ih =>
    have hp : (p.1 == k) = false := by
      simp [List.any_cons] at hAny
      simpa using hAny.1
    have hAny' : t.any (fun p => p.1 == k) = false := by
      simp [List.any_cons] at hAny
      simpa using hAny.2
    simpa [dictGet, List.find?, hp] using ih hAny'

theorem dictGet_dictInsert_self {α : Type} (m : List (Nat × α)) (k : Nat) (v : α) :
    dictGet (dictInsert m k v) k = some v := by
  unfold dictInsert
  cases hAny : m.any (fun p => p.1 == k) with
  | true =>
    rw [if_pos rfl]
    unfold dictGet
    rw [find?_map_replace_self m k v hAny]
    rfl
  | false =>
    rw [if_neg (by simp)]
    exact dictGet_append_self m k v hAny

theorem find?_map_replace_ne {α : Type} (m : List (Nat × α)) (k k' : Nat) (v : α)
    (hne : k' ≠ k) :
    (m.map (fun p => if p.1 == k then (k, v) else p)).find? (fun p => p.1 == k')
      = m.find? (fun p => p.1 == k') := by
  induction m with
  | nil => rfl
  | cons p t ih =>
    by_cases hp : p.1 == k
    · have hp1 : p.1 = k := by simpa using hp
      have h1 : (k == k') = false := by simp; omega
      have h2 : (p.1 == k') = false := by rw [hp1]; exact h1
      rw [List.map_cons, if_pos hp]
      simp only [List.find?_cons, h1, h2]
      exact ih
    · rw [List.map_cons, if_neg hp]
      cases hp' : p.1 == k' with
      | true => simp only [List.find?_cons, hp']
      | false =>
        simp only [List.find?_cons, hp']
        exact ih

theorem find?_append_keyed {α : Type} (m : List (Nat × α)) (k k' : Nat) (v : α)
    (hne : k' ≠ k) :
    (m ++ [(k, v)]).find? (fun p => p.1 == k')
      = m.find? (fun p => p.1 == k') := by
  induction m with
  | nil =>
    have h1 : (k == k') = false := by simp; omega
    simp only [List.nil_append, List.find?_cons, h1]
  | cons p t ih =>
    rw [List.cons_append]
    cases hp' : p.1 == k' with
    | true => simp only [List.find?_cons, hp']
    | false =>
      simp only [List.find?_cons, hp']
      exact ih

theorem dictGet_dictInsert_ne {α : Type} (m : List (Nat × α)) (k k' : Nat) (v : α)
    (hne : k' ≠ k) :
    dictGet (dictInsert m k v) k' = dictGet m k' := by
  unfold dictInsert dictGet
  split
  · rw [find?_map_replace_ne m k k' v hne]
  · rw [find?_append_keyed m k k' v hne]

theorem mem_dictInsert {α : Type} {m : List (Nat × α)} {k : Nat} {v : α}
    {p : Nat × α} (h : p ∈ dictInsert m k v) : p = (k, v) ∨ p ∈ m := by
  unfold dictInsert at h
  split at h
  · obtain ⟨q, hq, hfq⟩ := List.mem_map.1 h
    by_cases hqk : q.1 == k
    · rw [if_pos hqk] at hfq
      left
      exact hfq.symm
    · rw [if_neg (by simpa using hqk)] at hfq
      right
      rwa [← hfq]
  · rcases List.mem_append.1 h with h | h
    · right; exact h
    · left; simpa using h

theorem dictGet_mem {α : Type} {m : List (Nat × α)} {k : Nat} {s : α}
    (h : dictGet m k = some s) : (k, s) ∈ m := by
  unfold dictGet at h
  cases hf : m.find? (fun p => p.1 == k) with
  | none => rw [hf] at h; cases h
  | some p =>
    rw [hf] at h
    have hmem := List.mem_of_find?_eq_some hf
    have hpk := List.find?_some hf
    have hp1 : p.1 = k := by simpa using hpk
    have hp2 : p.2 = s := by simpa using h
    have : p = (k, s) := by
      cases p
      simp_all
    rwa [this] at hmem

theorem keys_dictInsert_nodup {α : Type} (m : List (Nat × α)) (k : Nat) (v : α)
    (h : (m.map Prod.fst).Nodup) :
    ((dictInsert m k v).map Prod.fst).Nodup := by
  unfold dictInsert
  split
  · have hmm : (m.map (fun p => if p.1 == k then (k, v) else p)).map Prod.fst
        = m.map Prod.fst := by
      rw [List.map_map]
      apply List.map_congr_left
      intro p _
      by_cases hpk : p.1 == k
      · have hp1 : p.1 = k := by simpa using hpk
        simp [Function.comp, hpk, hp1]
      · simp [Function.comp, hpk]
    rw [hmm]
    exact h
  · rename_i hAny
    have hk : k ∉ m.map Prod.fst := by
      intro hmem
      obtain ⟨p, hp, hpk⟩ := List.mem_map.1 hmem
      apply hAny
      exact List.any_eq_true.2 ⟨p, hp, by simp [hpk]⟩
    simp [List.nodup_append, h, hk]

/-! ## Claim C1 -/

/-- C1 (counterexample): when stdout decodes as JSON and the exit code is
non-zero, `execute` returns `success = false` with the `error` field absent —
refuting the claim that every failed result carries a populated error
detail. -/
theorem C1_counterexample_json_failure_has_no_error :
    (execute (.completed 1 "{}" "" (some ⟨none, none, none, none⟩)) 450).success
      = false ∧
    (execute (.completed 1 "{}" "" (some ⟨none, none, none, none⟩)) 450).error
      = none := by
  constructor
  · rfl
  · rfl

/-- C1 (amended): whenever `execute` returns `success = false` on any path
other than the JSON-decode-success path, the error field is populated with a
non-empty message (stderr, a synthesized exit-code message, the timeout
message, the not-found message, or the exception text — non-empty whenever
the exception text is); on the JSON-decode-success path with non-zero exit
code the result has `success = false` but no error detail. -/
theorem C1_failure_error_populated_off_json_path (o : ExecOutcome) (n : Nat)
    (hfail : (execute o n).success = false)
    (hnotjson : ∀ (ec : Int) (so se : String) (p : JsonPayload),
      o ≠ .completed ec so se (some p))
    (hexc : ∀ msg : String, o = .exception msg → msg ≠ "") :
    ∃ m, (execute o n).error = some m ∧ m ≠ "" := by
  cases o with
  | completed ec so se payload =>
    cases payload with
    | some p => exact absurd rfl (hnotjson ec so se p)
    | none =>
      have hec : ¬ec = 0 := by simpa [execute] using hfail
      by_cases hse : se ≠ ""
      · exact ⟨se, by simp [execute, hse], hse⟩
      · by_cases hso : so ≠ ""
        · refine ⟨"Command failed (exit code " ++ toString ec ++ "). Output: "
            ++ so.take 500, by simp [execute, hse, hso, hec], ?_⟩
          apply string_append_ne_empty
          rw [String.length_append, String.length_append]
          have h26 : ("Command failed (exit code ").length = 26 := by decide
          have h11 : ("). Output: ").length = 11 := by decide
          omega
        · refine ⟨"Command failed with exit code " ++ toString ec,
            by simp [execute, hse, hso, hec], ?_⟩
          apply string_append_ne_empty
          decide
  | timedOut =>
    refine ⟨"Claude CLI timed out after " ++ toString n ++ " seconds", rfl, ?_⟩
    apply string_append_ne_empty
    rw [String.length_append]
    have h27 : ("Claude CLI timed out after ").length = 27 := by decide
    omega
  | notFound =>
    exact ⟨"Claude CLI not found. Ensure it is installed and in PATH.", rfl,
      by decide⟩
  | exception msg => exact ⟨msg, rfl, hexc msg rfl⟩

/-- C1 witness: the amended statement instantiated at a concrete timeout
outcome. -/
theorem C1_failure_error_populated_off_json_path_witness :
    ∃ m, (execute .timedOut 5).error = some m ∧ m ≠ "" :=
  C1_failure_error_populated_off_json_path .timedOut 5 rfl
    (fun _ _ _ _ h => ExecOutcome.noConfusion h)
    (fun _ h => ExecOutcome.noConfusion h)

/-! ## Claim C2 -/

/-- C2 (counterexample): a phase-1 invocation returning `success = false`
(here a timeout with the real 180s phase-1 timeout) leaves the incident
status `"investigating"`, not `"error"`, refuting the claim that the incident
ends in the `error` state. -/
theorem C2_counterexample_status_stays_investigating :
    (execute .timedOut 180).success = false ∧
    (investigateIncident false (execute .timedOut 180) (execute .timedOut 120)
        (execute .timedOut 120)).status ≠ "error" ∧
    (investigateIncident false (execute .timedOut 180) (execute .timedOut 120)
        (execute .timedOut 120)).status = "investigating" := by
  refine ⟨rfl, by decide, rfl⟩

/-- C2 (amended): when the phase-1 (investigation) invocation returns
`success = false`, `_investigate_incident` returns early: the incident status
remains `"investigating"` (the value set at creation — it is not set to
`"error"`) and no phase-2 or phase-3 invocation is issued. -/
theorem C2_phase1_failure_stops_without_error_status (ar : Bool)
    (inv diag rem : ExecResult) (h : inv.success = false) :
    (investigateIncident ar inv diag rem).status = "investigating" ∧
    (investigateIncident ar inv diag rem).invoked = [Phase.investigation] := by
  simp [investigateIncident, h]

/-- C2 witness: the amended statement at a concrete failing phase-1 result. -/
theorem C2_phase1_failure_stops_without_error_status_witness :
    (investigateIncident false (execute .timedOut 180) (execute .timedOut 120)
        (execute .timedOut 120)).status = "investigating" ∧
    (investigateIncident false (execute .timedOut 180) (execute .timedOut 120)
        (execute .timedOut 120)).invoked = [Phase.investigation] :=
  C2_phase1_failure_stops_without_error_status false (execute .timedOut 180)
    (execute .timedOut 120) (execute .timedOut 120) rfl

/-! ## Claim C3 -/

/-- C3: on a timeout the call resolves to `success = false` with the error
detail "Claude CLI timed out after n seconds", but the code path performs no
subprocess termination (there is no `process.kill()`/`terminate()` call;
`asyncio.wait_for` only cancels the `communicate()` await), so the child
process is left running — contradicting the claim that the underlying process
is terminated. -/
theorem C3_timeout_fails_but_never_kills_subprocess (n : Nat) :
    (execute .timedOut n).success = false ∧
    (execute .timedOut n).error
      = some ("Claude CLI timed out after " ++ toString n ++ " seconds") ∧
    terminatesSubprocess .timedOut = false :=
  ⟨rfl, rfl, rfl⟩

/-! ## Claim C5 -/

/-- C5: an approval whose deadline elapses with no click resolves to a denial
(`approved = some false`) with no decider (`responder = none`); it is never
resolved as approved and never left pending, and `remediate_command` then
stops before the phase-3 execution call. -/
theorem C5_deadline_expiry_resolves_to_denial :
    ApprovalView.resolve .timeoutElapsed
      = { approved := some false, responder := none } ∧
    (ApprovalView.resolve .timeoutElapsed).approved ≠ some true ∧
    (ApprovalView.resolve .timeoutElapsed).approved ≠ none ∧
    remediateAfterWait (ApprovalView.resolve .timeoutElapsed)
      = RemediateOutcome.deniedStop :=
  ⟨rfl, by decide, by decide, rfl⟩

/-! ## Claim C6 -/

/-- C6: every `execute` call site passes a denied-tool list containing
"AskUserQuestion" — except the `/remediate` analysis phase, which passes the
literal `["Write", "Edit", "MultiEdit"]` and therefore does not deny the
interactive-question tool, contradicting the claim (and the code's own rule
that interactive tools are always disallowed in `--print` mode). -/
theorem C6_ask_user_question_denied_except_remediate_analysis (c : Config) :
    "AskUserQuestion" ∈ disallowedToolsAt c .conversationTurn ∧
    "AskUserQuestion" ∈ disallowedToolsAt c .investigateAlert ∧
    "AskUserQuestion" ∈ disallowedToolsAt c .runDiagnostics ∧
    "AskUserQuestion" ∈ disallowedToolsAt c .attemptRemediation ∧
    "AskUserQuestion" ∈ disallowedToolsAt c .askOracle ∧
    "AskUserQuestion" ∈ disallowedToolsAt c .runTask ∧
    "AskUserQuestion" ∈ disallowedToolsAt c .remediateExecute ∧
    "AskUserQuestion" ∉ disallowedToolsAt c .remediateAnalysis := by
  have hmem : "AskUserQuestion" ∈ get_disallowed_tools c := by
    unfold get_disallowed_tools
    split <;> simp
  have hnot : "AskUserQuestion" ∉ (["Write", "Edit", "MultiEdit"] : List String) := by
    decide
  exact ⟨hmem, hmem, hmem, hmem, hmem, hmem, hmem, hnot⟩

/-! ## Claim C7 -/

/-- Per-phase reported cost, as read by `_investigate_incident` via
`result.get('cost', 0)`. -/
def phaseCost (inv diag rem : ExecResult) : Phase → ℚ
  | .investigation => inv.cost
  | .diagnostics => diag.cost
  | .remediation => rem.cost

/-- C7 (counterexample): a failing phase-1 result reporting cost 1 is added
to the incident's accumulated cost but nothing is added to the process-wide
ledger — refuting the claim that each executed phase's cost is also added to
the process-wide cost ledger including when a phase fails. -/
theorem C7_counterexample_failed_phase1_cost_not_in_ledger :
    (investigateIncident false
        (execute (.completed 1 "x" "" (some ⟨none, some 1, none, none⟩)) 180)
        (execute .timedOut 120) (execute .timedOut 120)).cost_usd = 1 ∧
    (investigateIncident false
        (execute (.completed 1 "x" "" (some ⟨none, some 1, none, none⟩)) 180)
        (execute .timedOut 120) (execute .timedOut 120)).ledgerAdd = 0 := by
  constructor
  · rfl
  · rfl

/-- C7 (amended): the incident's accumulated cost always equals the sum of
the executed phases' reported costs (skipped phases contributing 0); the
incident total is added to the process-wide ledger exactly when phase 1
succeeds (then including the costs of failed later phases), while on phase-1
failure the phase's cost is recorded on the incident only and nothing reaches
the process-wide ledger. -/
theorem C7_cost_additivity_with_ledger_gap (ar : Bool)
    (inv diag rem : ExecResult) :
    (investigateIncident ar inv diag rem).cost_usd
      = ((investigateIncident ar inv diag rem).invoked.map
          (phaseCost inv diag rem)).sum ∧
    (inv.success = true →
      (investigateIncident ar inv diag rem).ledgerAdd
        = (investigateIncident ar inv diag rem).cost_usd) ∧
    (inv.success = false →
      (investigateIncident ar inv diag rem).ledgerAdd = 0) := by
  cases hinv : inv.success <;> cases ar
  all_goals simp [investigateIncident, phaseCost, hinv]
  all_goals ring

/-- C7 witness: the amended statement at concrete phase results covering both
the phase-1-success and phase-1-failure ledger clauses. -/
theorem C7_cost_additivity_with_ledger_gap_witness :
    (investigateIncident false (execute .timedOut 180) (execute .timedOut 120)
        (execute .timedOut 120)).ledgerAdd = 0 ∧
    (investigateIncident true (execute (.completed 0 "done" "" none) 180)
        (execute .timedOut 120) (execute .timedOut 120)).ledgerAdd
      = (investigateIncident true (execute (.completed 0 "done" "" none) 180)
          (execute .timedOut 120) (execute .timedOut 120)).cost_usd :=
  ⟨(C7_cost_additivity_with_ledger_gap false (execute .timedOut 180)
      (execute .timedOut 120) (execute .timedOut 120)).2.2 rfl,
   (C7_cost_additivity_with_ledger_gap true (execute (.completed 0 "done" "" none) 180)
      (execute .timedOut 120) (execute .timedOut 120)).2.1 rfl⟩

/-! ## Claim C8 -/

/-- C8 (counterexample): two distinct alerts accepted within the same epoch
second (with different sub-second clock readings) receive the identical
incident id, and the second `active_incidents[...] = ...` assignment
overwrites the first, leaving a single map entry — refuting the claim that
incident identifiers are always distinct. -/
theorem C8_counterexample_same_second_ids_collide :
    (handle_alert [] 100 0
        { title := "Disk full", level := "critical", description := "d1" }).2
      = (handle_alert
          (handle_alert [] 100 0
            { title := "Disk full", level := "critical", description := "d1" }).1
          100 999999
          { title := "OOM", level := "warning", description := "d2" }).2 ∧
    (handle_alert
        (handle_alert [] 100 0
          { title := "Disk full", level := "critical", description := "d1" }).1
        100 999999
        { title := "OOM", level := "warning", description := "d2" }).1.length
      = 1 := by
  constructor
  · rfl
  · rfl

/-- C8 (amended): incident ids are derived from a second-resolution
timestamp, so any two alerts accepted within the same second — regardless of
their sub-second arrival times and alert contents — yield the same incident
id, and the second record overwrites the first in the incident map, leaving
one entry holding the later alert; incident ids are therefore not unique per
process run. -/
theorem C8_same_second_alerts_share_id_and_entry (s micro1 micro2 : Nat)
    (a1 a2 : Alert) :
    (handle_alert [] s micro1 a1).2
      = (handle_alert (handle_alert [] s micro1 a1).1 s micro2 a2).2 ∧
    (handle_alert (handle_alert [] s micro1 a1).1 s micro2 a2).1.length = 1 ∧
    dictGetS (handle_alert (handle_alert [] s micro1 a1).1 s micro2 a2).1
        (handle_alert [] s micro1 a1).2
      = some { id := incidentIdOf s, alert := a2, status := "investigating",
               cost_usd := 0 } := by
  simp [handle_alert, dictInsertS, dictGetS, List.find?_cons]

/-! ## Claim C9 -/

/-- C9: the temporary system-prompt file is deleted exactly on the paths
where the subprocess ran to completion (success, non-zero exit, JSON decode
failure); on the timeout, executable-not-found and unexpected-exception paths
no cleanup runs and the file is leaked — contradicting the claim that the
file is released on every outcome path. -/
theorem C9_temp_file_released_only_on_completed_path :
    (∀ (ec : Int) (so se : String) (p : Option JsonPayload),
        releasesSystemPromptFile (.completed ec so se p) = true) ∧
    releasesSystemPromptFile .timedOut = false ∧
    releasesSystemPromptFile .notFound = false ∧
    (∀ msg : String, releasesSystemPromptFile (.exception msg) = false) :=
  ⟨fun _ _ _ _ => rfl, rfl, rfl, fun _ => rfl⟩

/-! ## Session-manager lemmas for C4 and C10 -/

theorem get_or_create_session_create_eq (m : SessionManager) (now : Int)
    (ch : Nat) (hmiss : dictGet m.sessions ch = none) :
    m.get_or_create_session now ch
      = ((m.fresh, false),
         { m with
           sessions := dictInsert m.sessions ch
             { session_id := m.fresh, channel_id := ch, created_at := now,
               last_used := now, message_count := 1, total_cost := 0 }
           fresh := m.fresh + 1 }) := by
  unfold SessionManager.get_or_create_session
  simp only [hmiss]

theorem get_or_create_session_resume_eq (m : SessionManager) (now' : Int)
    (ch : Nat) (s : ChannelSession) (hs : dictGet m.sessions ch = some s)
    (hlive : now' - s.last_used < 60 * m.session_timeout) :
    m.get_or_create_session now' ch
      = ((s.session_id, true),
         { m with
           sessions := dictInsert m.sessions ch
             { s with
               last_used := now'
               message_count := s.message_count + 1 } }) := by
  unfold SessionManager.get_or_create_session
  simp only [hs, if_pos hlive]

theorem get_or_create_session_expired_eq (m : SessionManager) (now : Int)
    (ch : Nat) (s : ChannelSession) (hs : dictGet m.sessions ch = some s)
    (hexp : ¬(now - s.last_used < 60 * m.session_timeout)) :
    m.get_or_create_session now ch
      = ((m.fresh, false),
         { m with
           sessions := dictInsert m.sessions ch
             { session_id := m.fresh, channel_id := ch, created_at := now,
               last_used := now, message_count := 1, total_cost := 0 }
           fresh := m.fresh + 1 }) := by
  unfold SessionManager.get_or_create_session
  simp only [hs, if_neg hexp]

theorem get_or_create_session_post (m : SessionManager) (now : Int) (ch : Nat) :
    (m.get_or_create_session now ch).2.session_timeout = m.session_timeout ∧
    ∃ s : ChannelSession,
      dictGet (m.get_or_create_session now ch).2.sessions ch = some s ∧
      s.session_id = (m.get_or_create_session now ch).1.1 ∧
      s.last_used = now := by
  cases hg : dictGet m.sessions ch with
  | none =>
    rw [get_or_create_session_create_eq m now ch hg]
    exact ⟨rfl, _, dictGet_dictInsert_self _ _ _, rfl, rfl⟩
  | some s =>
    by_cases hlive : now - s.last_used < 60 * m.session_timeout
    · rw [get_or_create_session_resume_eq m now ch s hg hlive]
      exact ⟨rfl, _, dictGet_dictInsert_self _ _ _, rfl, rfl⟩
    · rw [get_or_create_session_expired_eq m now ch s hg hlive]
      exact ⟨rfl, _, dictGet_dictInsert_self _ _ _, rfl, rfl⟩

theorem sessionInv_dictInsert {sessions : List (Nat × ChannelSession)}
    {fresh f' : Nat}
    (hnd : (sessions.map Prod.fst).Nodup)
    (hall : ∀ p ∈ sessions, p.2.channel_id = p.1 ∧ 1 ≤ p.2.message_count ∧
      p.2.session_id < fresh)
    (ch : Nat) (s : ChannelSession)
    (hch : s.channel_id = ch) (hcnt : 1 ≤ s.message_count)
    (hid : s.session_id < f') (hmono : fresh ≤ f') :
    ((dictInsert sessions ch s).map Prod.fst).Nodup ∧
    ∀ p ∈ dictInsert sessions ch s,
      p.2.channel_id = p.1 ∧ 1 ≤ p.2.message_count ∧ p.2.session_id < f' := by
  refine ⟨keys_dictInsert_nodup _ _ _ hnd, ?_⟩
  intro p hp
  rcases mem_dictInsert hp with rfl | hp'
  · exact ⟨hch, hcnt, hid⟩
  · obtain ⟨h1, h2, h3⟩ := hall p hp'
    exact ⟨h1, h2, by omega⟩

theorem sessionInv_reachable {m : SessionManager} (h : SessionReachable m) :
    SessionInv m := by
  induction h with
  | init t => exact ⟨by simp [SessionManager.init], by simp [SessionManager.init]⟩
  | step hr hs ih =>
    rename_i m m'
    cases hs with
    | getOrCreate now ch =>
      cases hg : dictGet m.sessions ch with
      | none =>
        rw [get_or_create_session_create_eq m now ch hg]
        exact sessionInv_dictInsert ih.1 ih.2 ch _ rfl le_rfl
          (Nat.lt_succ_self _) (Nat.le_succ _)
      | some s =>
        obtain ⟨hch0, hcnt0, hid0⟩ := ih.2 (ch, s) (dictGet_mem hg)
        have hch : s.channel_id = ch := hch0
        have hid : s.session_id < m.fresh := hid0
        by_cases hlive : now - s.last_used < 60 * m.session_timeout
        · rw [get_or_create_session_resume_eq m now ch s hg hlive]
          exact sessionInv_dictInsert ih.1 ih.2 ch _ hch
            (Nat.le_add_left 1 s.message_count) hid le_rfl
        · rw [get_or_create_session_expired_eq m now ch s hg hlive]
          exact sessionInv_dictInsert ih.1 ih.2 ch _ rfl le_rfl
            (Nat.lt_succ_self _) (Nat.le_succ _)
    | reset now ch =>
      unfold SessionManager.reset_session
      exact sessionInv_dictInsert ih.1 ih.2 ch _ rfl le_rfl
        (Nat.lt_succ_self _) (Nat.le_succ _)
    | updateCost ch c =>
      unfold SessionManager.update_cost
      cases hg : dictGet m.sessions ch with
      | none => exact ih
      | some s =>
        obtain ⟨hch0, hcnt0, hid0⟩ := ih.2 (ch, s) (dictGet_mem hg)
        have hch : s.channel_id = ch := hch0
        have hcnt : 1 ≤ s.message_count := hcnt0
        have hid : s.session_id < m.fresh := hid0
        exact sessionInv_dictInsert ih.1 ih.2 ch _ hch hcnt hid le_rfl

/-! ## Claim C4 -/

/-- C4: (first part) a second `get_or_create_session` call on the same
channel within the timeout window of the first returns the first call's token
with `is_resume = true` and bumps the stored `message_count` by exactly one;
(second part) when the stored session's idle age is at or past the timeout,
the call returns the fresh-supply token — distinct from every stored token,
hence previously unused — with `is_resume = false` and a stored
`message_count` of 1. -/
theorem C4_session_window_semantics :
    (∀ (m : SessionManager) (ch : Nat) (now now' : Int),
      now' - now < 60 * m.session_timeout →
      ((m.get_or_create_session now ch).2.get_or_create_session now' ch).1.1
          = (m.get_or_create_session now ch).1.1 ∧
      ((m.get_or_create_session now ch).2.get_or_create_session now' ch).1.2
          = true ∧
      ∃ s1 s2 : ChannelSession,
        (m.get_or_create_session now ch).2.get_session_info ch = some s1 ∧
        ((m.get_or_create_session now ch).2.get_or_create_session
            now' ch).2.get_session_info ch = some s2 ∧
        s2.message_count = s1.message_count + 1) ∧
    (∀ (m : SessionManager) (ch : Nat) (now : Int) (s : ChannelSession),
      SessionInv m →
      m.get_session_info ch = some s →
      60 * m.session_timeout ≤ now - s.last_used →
      (m.get_or_create_session now ch).1.1 = m.fresh ∧
      (m.get_or_create_session now ch).1.2 = false ∧
      (∀ (ch' : Nat) (s' : ChannelSession),
        m.get_session_info ch' = some s' →
          s'.session_id ≠ (m.get_or_create_session now ch).1.1) ∧
      ∃ s2 : ChannelSession,
        (m.get_or_create_session now ch).2.get_session_info ch = some s2 ∧
        s2.message_count = 1 ∧ s2.session_id = m.fresh) := by
  constructor
  · intro m ch now now' hwin
    obtain ⟨hto, s1, hs1, hid, hlast⟩ := get_or_create_session_post m now ch
    have hlive : now' - s1.last_used
        < 60 * (m.get_or_create_session now ch).2.session_timeout := by
      rw [hlast, hto]
      exact hwin
    rw [get_or_create_session_resume_eq
      (m.get_or_create_session now ch).2 now' ch s1 hs1 hlive]
    exact ⟨hid, rfl, s1, _, hs1, dictGet_dictInsert_self _ _ _, rfl⟩
  · intro m ch now s hInv hs hexp
    have hexp' : ¬(now - s.last_used < 60 * m.session_timeout) := by omega
    rw [get_or_create_session_expired_eq m now ch s hs hexp']
    refine ⟨rfl, rfl, ?_, _, dictGet_dictInsert_self _ _ _, rfl, rfl⟩
    intro ch' s' hs'
    have hlt : s'.session_id < m.fresh :=
      (hInv.2 (ch', s') (dictGet_mem hs')).2.2
    show s'.session_id ≠ m.fresh
    omega

/-- C4 witness: both parts at concrete inputs (timeout 30 minutes, channel 7;
second call 60 seconds after the first, then a call at exactly the expiry
boundary 1800 seconds after last use). -/
theorem C4_session_window_semantics_witness :
    (((SessionManager.init 30).get_or_create_session 0 7).2.get_or_create_session
        60 7).1.2 = true ∧
    ((((SessionManager.init 30).get_or_create_session 0 7).2).get_or_create_session
        1800 7).1.2 = false :=
  ⟨(C4_session_window_semantics.1 (SessionManager.init 30) 7 0 60
      (by decide)).2.1,
   (C4_session_window_semantics.2
      ((SessionManager.init 30).get_or_create_session 0 7).2 7 1800
      { session_id := 0, channel_id := 7, created_at := 0, last_used := 0,
        message_count := 1, total_cost := 0 }
      (by unfold SessionInv; decide) rfl (by decide)).2.1⟩

/-! ## Claim C10 -/

/-- C10: in every state reachable by any sequence of `get_or_create_session`,
`reset_session` and `update_cost` calls, the session map has unique channel
keys (at most one session per channel), every stored session is keyed by its
own `channel_id` and has `message_count ≥ 1`; and `update_cost` never changes
any stored session's token or message count.  `get_session_info` is a pure
lookup (it takes no step in the embedding), so it cannot mutate anything. -/
theorem C10_session_manager_invariants :
    (∀ m : SessionManager, SessionReachable m →
      (m.sessions.map Prod.fst).Nodup ∧
      ∀ (ch : Nat) (s : ChannelSession), m.get_session_info ch = some s →
        s.channel_id = ch ∧ 1 ≤ s.message_count) ∧
    (∀ (m : SessionManager) (ch : Nat) (c : ℚ) (ch' : Nat),
      ((m.update_cost ch c).get_session_info ch').map
          (fun s => (s.session_id, s.message_count))
        = (m.get_session_info ch').map
            (fun s => (s.session_id, s.message_count))) := by
  constructor
  · intro m hm
    have hInv := sessionInv_reachable hm
    refine ⟨hInv.1, ?_⟩
    intro ch s hs
    obtain ⟨h1, h2, _⟩ := hInv.2 (ch, s) (dictGet_mem hs)
    exact ⟨h1, h2⟩
  · intro m ch c ch'
    unfold SessionManager.update_cost
    cases hg : dictGet m.sessions ch with
    | none => rfl
    | some s =>
      by_cases hch : ch' = ch
      · subst hch
        show (dictGet (dictInsert m.sessions ch'
              { s with total_cost := s.total_cost + c }) ch').map
            (fun s => (s.session_id, s.message_count))
          = (dictGet m.sessions ch').map
              (fun s => (s.session_id, s.message_count))
        rw [dictGet_dictInsert_self, hg]
        rfl
      · show (dictGet (dictInsert m.sessions ch
              { s with total_cost := s.total_cost + c }) ch').map
            (fun s => (s.session_id, s.message_count))
          = (dictGet m.sessions ch').map
              (fun s => (s.session_id, s.message_count))
        rw [dictGet_dictInsert_ne _ _ _ _ hch]

/-- C10 witness: the invariant read back from a concrete reachable state (one
`get_or_create_session` call on channel 7 from the initial manager). -/
theorem C10_session_manager_invariants_witness :
    ({ session_id := 0, channel_id := 7, created_at := 0, last_used := 0,
       message_count := 1, total_cost := 0 } : ChannelSession).channel_id = 7 ∧
    1 ≤ ({ session_id := 0, channel_id := 7, created_at := 0, last_used := 0,
           message_count := 1, total_cost := 0 } : ChannelSession).message_count :=
  (C10_session_manager_invariants.1
      ((SessionManager.init 30).get_or_create_session 0 7).2
      (SessionReachable.step (SessionReachable.init 30)
        (SessionStep.getOrCreate (SessionManager.init 30) 0 7))).2
    7 _ rfl

end Oracle
